import Mathlib

/-!
# Verification of the Underactuated-Robotics teaching notebooks

Shallow embedding of the three notebooks of the repository:

* the ROA-estimation notebook for the time-reversed Van der Pol oscillator
  (line search `is_verified`, the Method 2 and Method 3 cells, the autograder cell);
* the linear system-identification notebook (`generate_data`, `sysid_2norm`,
  `sysid_infnorm`, `sysid_1norm`, the autograder cell);
* the limit-cycles notebook (`vdp_limit_cycle`).

Machine reals are modelled by exact rationals; the external SDP solver is an
abstract parameter (a function from the built program to a result), so that
what the notebooks do with the solver's answer is captured exactly while the
solver's numerics stay abstract.
-/

namespace Underactuated

/-! ## Time-reversed Van der Pol dynamics (ROA notebook)

`f = lambda x: [- x[1], x[0] + (x[0]**2 - 1) * x[1]]`, stated over any
commutative ring so the same definition serves exact (ℚ) evaluation and the
real-analytic Jacobian computation. -/

/-- The time-reversed Van der Pol dynamics from the ROA notebook:
`f = lambda x: [- x[1], x[0] + (x[0]**2 - 1) * x[1]]`. -/
def f {R : Type} [CommRing R] (x : R × R) : R × R :=
  (-x.2, x.1 + (x.1 ^ 2 - 1) * x.2)

/-- `A = np.array([[0, -1], [1, -1]])`, the linearization of `f` at the origin. -/
def A_lin : Matrix (Fin 2) (Fin 2) ℚ := !![0, -1; 1, -1]

/-- `Q = np.eye(2)`, the right-hand side of the Lyapunov equation. -/
def Q_lyap : Matrix (Fin 2) (Fin 2) ℚ := 1

/-- `P = RealContinuousLyapunovEquation(A, Q)`: the library returns the unique
symmetric solution of `Aᵀ P + P A = -Q`; for this `A` and `Q` that solution is
`[[3/2, -1/2], [-1/2, 1]]` (verified below in `lyap_equation_holds`). -/
def P : Matrix (Fin 2) (Fin 2) ℚ := !![3/2, -1/2; -1/2, 1]

/-- `V = x.dot(P).dot(x)`, the quadratic Lyapunov candidate. -/
def V (x : ℚ × ℚ) : ℚ :=
  Matrix.dotProduct ![x.1, x.2] (P.mulVec ![x.1, x.2])

/-- `V_dot = 2*x.dot(P).dot(f(x))`. -/
def V_dot (x : ℚ × ℚ) : ℚ :=
  2 * Matrix.dotProduct ![x.1, x.2] (P.mulVec ![(f x).1, (f x).2])

/-! ## The SOS feasibility program built by `is_verified` -/

/-- `l_deg = 4` in `is_verified`. -/
def l_deg_is_verified : ℕ := 4

/-- `l_deg = 4` in the Method 2 cell. -/
def l_deg_method2 : ℕ := 4

/-- The `assert l_deg % 2 == 0` guard appearing in both SOS cells. -/
def l_deg_assert (d : ℕ) : Bool := d % 2 == 0

/-- `eps = 1e-3` in `is_verified`. -/
def eps_is_verified : ℚ := 1/1000

/-- The data of the SOS feasibility program built by one call of
`is_verified`: number of indeterminates, degree of the fresh SOS multiplier,
the ε constant, the single SOS constraint (as a function of the multiplier
polynomial, itself represented by its evaluation function), and the objective
(none: the formulation is pure feasibility). -/
structure SOSProgram where
  numIndeterminates : ℕ
  multiplierDegree : ℕ
  eps : ℚ
  sosConstraint : (ℚ × ℚ → ℚ) → (ℚ × ℚ → ℚ)
  objective : Option (ℚ × ℚ → ℚ)

/-- The program built from scratch by `is_verified(rho)`:
two indeterminates `x`, `V = x.dot(P).dot(x)`, `V_dot = 2*x.dot(P).dot(f(x))`,
a fresh SOS multiplier of degree `l_deg = 4`, the single constraint
`- V_dot - l * (rho - V) - eps*x.dot(x)` and no objective. -/
def is_verified_prog (rho : ℚ) : SOSProgram where
  numIndeterminates := 2
  multiplierDegree := l_deg_is_verified
  eps := eps_is_verified
  sosConstraint := fun l x =>
    -(V_dot x) - l x * (rho - V x) - eps_is_verified * (x.1 * x.1 + x.2 * x.2)
  objective := none

/-- `is_verified(rho)` hands the freshly built program to the solver and
returns `result.is_success()` unchanged.  The solver is an abstract parameter:
the call reads no state besides `rho` and writes none. -/
def is_verified (rho : ℚ) (solver : SOSProgram → Bool) : Bool :=
  solver (is_verified_prog rho)

/-! ## The line-search cell and the Method 3 cell (shipped state)

Both cells are student placeholders: the shipped code assigns the literal `0`
to `rho_method_1` and `rho_method_3` (the `# modify here` regions are empty). -/

/-- `rho_method_1 = 0 # modify here` (line-search cell as shipped). -/
def rho_method_1 : ℚ := 0

/-- `rho_step = .01 # do not modify` (line-search cell). -/
def rho_step : ℚ := 1/100

/-- `rho_method_3 = 0 # modify here` (Method 3 cell as shipped). -/
def rho_method_3 : ℚ := 0

/-! ## The Method 2 cell

The scaffold of the cell declares the indeterminates, `V`, `V_dot`,
`l = prog2.NewSosPolynomial(Variables(x), l_deg)[0].ToExpression()` — which
registers exactly one constraint on `prog2` (the SOS/Gram constraint on the
multiplier) — and the decision variable `rho`.  The two `# modify here` lines
(the `AddSosConstraint` call and the `AddLinearCost` call) are empty as
shipped.  `Solve` runs only under
`if len(prog2.GetAllConstraints()) > 1:`, and on a successful solve the cell
binds `rho_method_2`; `assert result.is_success()` guards the extraction. -/

/-- Number of constraints `prog2` carries after the scaffold alone:
the one SOS constraint registered by `NewSosPolynomial` for the multiplier. -/
def method2ScaffoldConstraints : ℕ := 1

/-- Constraint count of `prog2` once the student's `# modify here` region has
added `studentAdded` constraints (0 as shipped). -/
def method2ConstraintCount (studentAdded : ℕ) : ℕ :=
  method2ScaffoldConstraints + studentAdded

/-- Abstract outcome of one `Solve(prog2)` call: the success flag and the
value the solver would report for `rho`. -/
structure SolveOutcome where
  success : Bool
  rhoValue : ℚ

/-- Observable result of executing the Method 2 cell. -/
structure Method2Run where
  solveCalled : Bool
  assertionFired : Bool
  rho_method_2 : Option ℚ

/-- The Method 2 cell: `Solve` is invoked only when
`len(prog2.GetAllConstraints()) > 1`; on a non-success result the assertion
fires and `rho_method_2` stays unbound; otherwise `rho_method_2` is bound to
the solved value.  With the guard false nothing after it runs. -/
def method2Cell (studentAdded : ℕ) (solver : SolveOutcome) : Method2Run :=
  if method2ConstraintCount studentAdded > 1 then
    if solver.success then
      { solveCalled := true, assertionFired := false
        rho_method_2 := some solver.rhoValue }
    else
      { solveCalled := true, assertionFired := true, rho_method_2 := none }
  else
    { solveCalled := false, assertionFired := false, rho_method_2 := none }

/-! ## Solver invocations across the repository (for the error-handling claim)

Every textual `Solve(...)` call site in the three notebooks, with how the
returned result's success flag is handled and how many times the site invokes
the solver per execution of the enclosing code. -/

/-- How a call site treats the boolean success flag of the solver result. -/
inductive FlagHandling where
  | assertOnFailure : FlagHandling
  | returnFlag : FlagHandling
  | ignoreFlag : FlagHandling
deriving DecidableEq, Repr

/-- One `Solve` call site. -/
structure SolveSite where
  site : String
  handling : FlagHandling
  invocationsPerExecution : ℕ
deriving DecidableEq, Repr

/-- All `Solve(...)` call sites in the repository, transcribed:
* `limit_cycles.ipynb`, `vdp_limit_cycle`: `result = Solve(prog)` then
  `assert result.is_success()`;
* ROA notebook, `is_verified`: `result = Solve(prog)` then
  `return result.is_success()`;
* ROA notebook, Method 2 cell: `result = Solve(prog2)` then
  `assert result.is_success()`;
* `linear_sysid.ipynb`, `sysid_infnorm` scaffold: `result = Solve(prog)` then
  `obj_value = result.get_optimal_cost()` — the flag is never read;
* `linear_sysid.ipynb`, `sysid_1norm` scaffold: same as `sysid_infnorm`.
Each site calls `Solve` exactly once per execution (no loop or retry around
any of them). -/
def solveCallSites : List SolveSite :=
  [ { site := "limit_cycles.vdp_limit_cycle"
      handling := .assertOnFailure, invocationsPerExecution := 1 },
    { site := "roa.is_verified"
      handling := .returnFlag, invocationsPerExecution := 1 },
    { site := "roa.method2_cell"
      handling := .assertOnFailure, invocationsPerExecution := 1 },
    { site := "linear_sysid.sysid_infnorm"
      handling := .ignoreFlag, invocationsPerExecution := 1 },
    { site := "linear_sysid.sysid_1norm"
      handling := .ignoreFlag, invocationsPerExecution := 1 } ]

/-- A site "checks the success flag" when it either asserts on failure or
returns the flag to its caller. -/
def checksFlag (h : FlagHandling) : Bool :=
  h = FlagHandling.assertOnFailure || h = FlagHandling.returnFlag

/-! ## Cell-level structure of the three notebooks (for the autograding claim) -/

/-- The data of one autograding call
`Grader.grade_output([TestClass], [locals()], 'results.json')`. -/
structure GradingCall where
  testClass : String
  passesLocals : Bool
  resultsFile : String
deriving DecidableEq, Repr

/-- A notebook cell, classified by what matters here: markdown, ordinary code,
an empty trailing code cell, or the autograding cell. -/
inductive Cell where
  | markdown : Cell
  | code : Cell
  | emptyCode : Cell
  | grading : GradingCall → Cell
deriving DecidableEq, Repr

/-- The grading call of the ROA notebook:
`Grader.grade_output([TestVanDerPol], [locals()], 'results.json')`. -/
def roaGrading : GradingCall :=
  { testClass := "TestVanDerPol", passesLocals := true
    resultsFile := "results.json" }

/-- The grading call of the system-identification notebook:
`Grader.grade_output([TestLinearSysid], [locals()], 'results.json')`. -/
def sysidGrading : GradingCall :=
  { testClass := "TestLinearSysid", passesLocals := true
    resultsFile := "results.json" }

/-- Cell sequence of the ROA notebook (`van_der_pol.ipynb` text): 30 cells,
ending with the autograding cell. -/
def roaNotebook : List Cell :=
  [ .markdown, .code, .markdown, .code, .markdown, .code, .markdown,
    .markdown, .code, .markdown, .code, .markdown, .code, .markdown, .code,
    .markdown, .markdown, .code, .markdown, .code, .markdown, .markdown,
    .markdown, .code, .markdown, .markdown, .code, .markdown, .markdown,
    .grading roaGrading ]

/-- Cell sequence of `exercises/sysid/linear_sysid.ipynb`: 18 cells; the
autograding cell is followed by one empty code cell. -/
def sysidNotebook : List Cell :=
  [ .code, .markdown, .code, .markdown, .code, .markdown, .code, .markdown,
    .code, .markdown, .code, .markdown, .code, .markdown, .code, .markdown,
    .grading sysidGrading, .emptyCode ]

/-- Cell sequence of `limit_cycles.ipynb`: 5 cells, no autograding cell. -/
def limitCyclesNotebook : List Cell :=
  [ .markdown, .code, .markdown, .code, .emptyCode ]

/-- The notebooks of the repository. -/
def repositoryNotebooks : List (List Cell) :=
  [roaNotebook, sysidNotebook, limitCyclesNotebook]

/-- Whether a cell is an autograding cell that passes `locals()` and reports
to `results.json`. -/
def isStandardGradingCell (c : Cell) : Bool :=
  match c with
  | .grading g => g.passesLocals && g.resultsFile == "results.json"
  | _ => false

/-- Whether the notebook's final cell is a standard autograding cell. -/
def endsWithGradingCell (nb : List Cell) : Bool :=
  match nb.getLast? with
  | some c => isStandardGradingCell c
  | none => false

/-- Whether the notebook contains a standard autograding cell anywhere. -/
def containsGradingCell (nb : List Cell) : Bool :=
  nb.any isStandardGradingCell

/-! ## Linear system identification notebook: shipped identification code

`sysid_2norm`, `sysid_infnorm`, `sysid_1norm` as shipped: the
`Put your Solution here` region is empty, so the zero matrices prepared by the
scaffold are returned unchanged.  `X` has shape `(p, N+1)` (columns are
states), `U` has shape `(q, N+1)`; we index columns first. -/

/-- State/input trajectory data: `N+1` columns of height `p`. -/
def Traj (p N : ℕ) : Type := Fin (N + 1) → Fin p → ℚ

/-- `sysid_2norm(X, U)` as shipped: builds `A = np.zeros((n,n))`,
`B = np.zeros((n,m))` with `n = X.shape[0]`, `m = U.shape[0]`, leaves the
solution region empty, and returns `(A, B)`. -/
def sysid_2norm {p q N : ℕ} (_X : Traj p N) (_U : Traj q N) :
    (Fin p → Fin p → ℚ) × (Fin p → Fin q → ℚ) :=
  (fun _ _ => 0, fun _ _ => 0)

/-- `sysid_infnorm(X, U)` as shipped: zero matrices plus
`obj_value = result.get_optimal_cost()` from solving the empty scaffold
program; the cost reported by that external solve is abstract here. -/
def sysid_infnorm {p q N : ℕ} (emptySolveCost : ℚ)
    (_X : Traj p N) (_U : Traj q N) :
    (Fin p → Fin p → ℚ) × (Fin p → Fin q → ℚ) × ℚ :=
  (fun _ _ => 0, fun _ _ => 0, emptySolveCost)

/-- `sysid_1norm(X, U)` as shipped: identical scaffold to `sysid_infnorm`. -/
def sysid_1norm {p q N : ℕ} (emptySolveCost : ℚ)
    (_X : Traj p N) (_U : Traj q N) :
    (Fin p → Fin p → ℚ) × (Fin p → Fin q → ℚ) × ℚ :=
  (fun _ _ => 0, fun _ _ => 0, emptySolveCost)

/-! ## The regression objectives of the sysid notebook

The notebook prints `res = Ahat @ X[:,:-1] + Bhat @ U[:,:-1] - X[:,1:]` after
each identification and states the three optimization problems the student
must solve.  The solution bodies are absent from the shipped code, so the
identified matrices are modelled by their defining property: they minimize the
objective the notebook states. -/

/-- The residual matrix `Ahat @ X[:,:-1] + Bhat @ U[:,:-1] - X[:,1:]`,
entry at column `n` (of the first `N` columns) and row `i`. -/
def residual {p q N : ℕ} (Ahat : Fin p → Fin p → ℚ) (Bhat : Fin p → Fin q → ℚ)
    (X : Traj p N) (U : Traj q N) (n : Fin N) (i : Fin p) : ℚ :=
  (∑ j, Ahat i j * X n.castSucc j) + (∑ j, Bhat i j * U n.castSucc j)
    - X n.succ i

/-- The data `(X, U)` is a noiseless trajectory of the linear system
`x[n+1] = A x[n] + B u[n]` (the `generate_data` output with the Gaussian
measurement noise removed). -/
def NoiselessData {p q N : ℕ} (A : Fin p → Fin p → ℚ) (B : Fin p → Fin q → ℚ)
    (X : Traj p N) (U : Traj q N) : Prop :=
  ∀ (n : Fin N) (i : Fin p),
    X n.succ i = (∑ j, A i j * X n.castSucc j) + (∑ j, B i j * U n.castSucc j)

/-- Maximum of a list of rationals against the floor `0` (the value
`max_i |v i|` used by the `∞`-norm objective: all entries are absolute values,
so the floor is never the strict maximum for nonempty input). -/
def listMax (l : List ℚ) : ℚ := l.foldr max 0

/-- Modelled from the spec: the objective
`sum_n ||x[n+1] - A x[n] - B u[n]||_2^2` minimized by the completed
`sysid_2norm` (problem (a) of the notebook). -/
def objective2norm {p q N : ℕ} (X : Traj p N) (U : Traj q N)
    (M : (Fin p → Fin p → ℚ) × (Fin p → Fin q → ℚ)) : ℚ :=
  ∑ n : Fin N, ∑ i : Fin p, (residual M.1 M.2 X U n i) ^ 2

/-- Modelled from the spec: the objective
`sum_n ||x[n+1] - A x[n] - B u[n]||_inf` minimized by the completed
`sysid_infnorm` (problem (b) of the notebook). -/
def objectiveInfnorm {p q N : ℕ} (X : Traj p N) (U : Traj q N)
    (M : (Fin p → Fin p → ℚ) × (Fin p → Fin q → ℚ)) : ℚ :=
  ∑ n : Fin N, listMax (List.ofFn fun i : Fin p => |residual M.1 M.2 X U n i|)

/-- Modelled from the spec: the objective
`sum_n ||x[n+1] - A x[n] - B u[n]||_1` minimized by the completed
`sysid_1norm` (problem (c) of the notebook). -/
def objective1norm {p q N : ℕ} (X : Traj p N) (U : Traj q N)
    (M : (Fin p → Fin p → ℚ) × (Fin p → Fin q → ℚ)) : ℚ :=
  ∑ n : Fin N, ∑ i : Fin p, |residual M.1 M.2 X U n i|

/-- `M` minimizes the objective `J` over all matrix pairs. -/
def IsMinimizer {p q N : ℕ} (X : Traj p N) (U : Traj q N)
    (J : Traj p N → Traj q N →
      ((Fin p → Fin p → ℚ) × (Fin p → Fin q → ℚ)) → ℚ)
    (M : (Fin p → Fin p → ℚ) × (Fin p → Fin q → ℚ)) : Prop :=
  ∀ M', J X U M ≤ J X U M'

/-! ## The sysid notebook's data generation and the global random generator

`np.random.seed(0)` runs once in the import cell; `generate_data` simulates
the linear system through the external library and adds
`np.random.normal(size = X.shape) * noise_level` from the global generator.
The library is an abstract record of deterministic functions; the global
NumPy generator state is threaded explicitly. -/

/-- Abstract state of the global NumPy random generator. -/
def RngState : Type := ℕ

/-- The four system matrices `A, B, C, D` of the sysid notebook's test
system (entries are the decimal literals of the source as exact rationals). -/
def sysidTestSystem :
    Matrix (Fin 4) (Fin 4) ℚ × Matrix (Fin 4) (Fin 1) ℚ ×
      Matrix (Fin 4) (Fin 4) ℚ × Matrix (Fin 4) (Fin 1) ℚ :=
  (!![4/5, -1/10, 0, 0; 0, 1/5, 0, 1/10;
      0, -1/10, 10001/10000, 0; 0, 1/5, 0, 1/10],
   !![0; -1/50; 1/100; -1/50], 1, 0)

/-- The deterministic external-library surface used by `generate_data`:
the simulation pipeline (`LinearSystem`/`DiagramBuilder`/`Simulator`/logger,
returning sample times, input samples and clean state samples), the NumPy
seeding and normal-sampling primitives, and elementwise `X + noise * level`. -/
structure SysidLib where
  Tvec : Type
  Mat : Type
  simTUX : Matrix (Fin 4) (Fin 4) ℚ × Matrix (Fin 4) (Fin 1) ℚ ×
    Matrix (Fin 4) (Fin 4) ℚ × Matrix (Fin 4) (Fin 1) ℚ → Tvec × Mat × Mat
  seedState : ℕ → RngState
  normalLike : Mat → RngState → Mat × RngState
  addScaled : Mat → ℚ → Mat → Mat

/-- `generate_data(A, B, C, D, noise_level)`: simulate, then perturb the
logged states with `np.random.normal(size = X.shape) * noise_level` drawn
from the global generator state `s`. -/
def generate_data (lib : SysidLib)
    (params : Matrix (Fin 4) (Fin 4) ℚ × Matrix (Fin 4) (Fin 1) ℚ ×
      Matrix (Fin 4) (Fin 4) ℚ × Matrix (Fin 4) (Fin 1) ℚ)
    (noise_level : ℚ) (s : RngState) :
    (lib.Tvec × lib.Mat × lib.Mat) × RngState :=
  let tux := lib.simTUX params
  let ns := lib.normalLike tux.2.2 s
  ((tux.1, tux.2.1, lib.addScaled tux.2.2 noise_level ns.1), ns.2)

/-- The import cell's effect on the global generator: `np.random.seed(0)`
replaces whatever state the interpreter started with. -/
def importCellRng (lib : SysidLib) (_s : RngState) : RngState :=
  lib.seedState 0

/-- One execution of the sysid notebook up to and including
`t, U, X = generate_data(A, B, C, D)` (default `noise_level = 1e-5`),
started from interpreter RNG state `s`. -/
def sysidNotebookData (lib : SysidLib) (s : RngState) :
    (lib.Tvec × lib.Mat × lib.Mat) × RngState :=
  generate_data lib sysidTestSystem (1/100000) (importCellRng lib s)

/-! ## Concrete sample data (one-dimensional noiseless trajectory) -/

/-- Sample true system matrix `A` for a 1-state, 1-input instance. -/
def Aw : Fin 1 → Fin 1 → ℚ := fun _ _ => 1/2

/-- Sample true input matrix `B` for the same instance. -/
def Bw : Fin 1 → Fin 1 → ℚ := fun _ _ => 1/4

/-- Sample input trajectory: `u[0] = u[1] = 1`. -/
def Uw : Traj 1 1 := fun _ _ => 1

/-- Sample noiseless state trajectory: `x[0] = 1`,
`x[1] = (1/2)·1 + (1/4)·1 = 3/4`. -/
def Xw : Traj 1 1 := fun n _ => if n = 0 then 1 else 3/4

/-! ## Helper lemmas -/

theorem listMax_nonneg (l : List ℚ) : 0 ≤ listMax l := by
  induction l with
  | nil => simp [listMax]
  | cons a t ih =>
    simp only [listMax, List.foldr] at *
    exact le_max_of_le_right ih

theorem le_listMax {l : List ℚ} {x : ℚ} (hx : x ∈ l) : x ≤ listMax l := by
  induction l with
  | nil => cases hx
  | cons a t ih =>
    simp only [listMax, List.foldr] at *
    rcases List.mem_cons.mp hx with h | h
    · exact h ▸ le_max_left _ _
    · exact le_trans (ih h) (le_max_right _ _)

theorem listMax_eq_zero {l : List ℚ} (h : ∀ x ∈ l, x = 0) : listMax l = 0 := by
  induction l with
  | nil => simp [listMax]
  | cons a t ih =>
    simp only [listMax, List.foldr] at *
    rw [h a (List.mem_cons.mpr (Or.inl rfl)),
      ih fun x hx => h x (List.mem_cons.mpr (Or.inr hx)), max_self]

theorem residual_of_noiseless {p q N : ℕ}
    {A : Fin p → Fin p → ℚ} {B : Fin p → Fin q → ℚ}
    {X : Traj p N} {U : Traj q N} (hdata : NoiselessData A B X U)
    (n : Fin N) (i : Fin p) : residual A B X U n i = 0 := by
  simp only [residual, hdata n i]
  ring

theorem objective2norm_nonneg {p q N : ℕ} (X : Traj p N) (U : Traj q N)
    (M : (Fin p → Fin p → ℚ) × (Fin p → Fin q → ℚ)) :
    0 ≤ objective2norm X U M :=
  Finset.sum_nonneg fun _ _ => Finset.sum_nonneg fun _ _ => sq_nonneg _

theorem objectiveInfnorm_nonneg {p q N : ℕ} (X : Traj p N) (U : Traj q N)
    (M : (Fin p → Fin p → ℚ) × (Fin p → Fin q → ℚ)) :
    0 ≤ objectiveInfnorm X U M :=
  Finset.sum_nonneg fun _ _ => listMax_nonneg _

theorem objective1norm_nonneg {p q N : ℕ} (X : Traj p N) (U : Traj q N)
    (M : (Fin p → Fin p → ℚ) × (Fin p → Fin q → ℚ)) :
    0 ≤ objective1norm X U M :=
  Finset.sum_nonneg fun _ _ => Finset.sum_nonneg fun _ _ => abs_nonneg _

theorem objective2norm_true {p q N : ℕ}
    {A : Fin p → Fin p → ℚ} {B : Fin p → Fin q → ℚ}
    {X : Traj p N} {U : Traj q N} (hdata : NoiselessData A B X U) :
    objective2norm X U (A, B) = 0 :=
  Finset.sum_eq_zero fun n _ => Finset.sum_eq_zero fun i _ => by
    rw [residual_of_noiseless hdata n i]
    ring

theorem objectiveInfnorm_true {p q N : ℕ}
    {A : Fin p → Fin p → ℚ} {B : Fin p → Fin q → ℚ}
    {X : Traj p N} {U : Traj q N} (hdata : NoiselessData A B X U) :
    objectiveInfnorm X U (A, B) = 0 :=
  Finset.sum_eq_zero fun n _ => listMax_eq_zero fun x hx => by
    rcases Set.mem_range.mp ((List.mem_ofFn _ _).mp hx) with ⟨i, hi⟩
    rw [← hi, residual_of_noiseless hdata n i, abs_zero]

theorem objective1norm_true {p q N : ℕ}
    {A : Fin p → Fin p → ℚ} {B : Fin p → Fin q → ℚ}
    {X : Traj p N} {U : Traj q N} (hdata : NoiselessData A B X U) :
    objective1norm X U (A, B) = 0 :=
  Finset.sum_eq_zero fun n _ => Finset.sum_eq_zero fun i _ => by
    rw [residual_of_noiseless hdata n i, abs_zero]

theorem isMinimizer2_of_noiseless {p q N : ℕ}
    {A : Fin p → Fin p → ℚ} {B : Fin p → Fin q → ℚ}
    {X : Traj p N} {U : Traj q N} (hdata : NoiselessData A B X U) :
    IsMinimizer X U objective2norm (A, B) := fun M' => by
  rw [objective2norm_true hdata]
  exact objective2norm_nonneg X U M'

theorem isMinimizerInf_of_noiseless {p q N : ℕ}
    {A : Fin p → Fin p → ℚ} {B : Fin p → Fin q → ℚ}
    {X : Traj p N} {U : Traj q N} (hdata : NoiselessData A B X U) :
    IsMinimizer X U objectiveInfnorm (A, B) := fun M' => by
  rw [objectiveInfnorm_true hdata]
  exact objectiveInfnorm_nonneg X U M'

theorem isMinimizer1_of_noiseless {p q N : ℕ}
    {A : Fin p → Fin p → ℚ} {B : Fin p → Fin q → ℚ}
    {X : Traj p N} {U : Traj q N} (hdata : NoiselessData A B X U) :
    IsMinimizer X U objective1norm (A, B) := fun M' => by
  rw [objective1norm_true hdata]
  exact objective1norm_nonneg X U M'

theorem objective2norm_eq_zero_residual {p q N : ℕ}
    {X : Traj p N} {U : Traj q N}
    {M : (Fin p → Fin p → ℚ) × (Fin p → Fin q → ℚ)}
    (h : objective2norm X U M = 0) (n : Fin N) (i : Fin p) :
    residual M.1 M.2 X U n i = 0 := by
  have hn := (Finset.sum_eq_zero_iff_of_nonneg fun n _ =>
    Finset.sum_nonneg fun i _ => sq_nonneg
      (residual M.1 M.2 X U n i)).mp h n (Finset.mem_univ n)
  have hi := (Finset.sum_eq_zero_iff_of_nonneg fun i _ =>
    sq_nonneg (residual M.1 M.2 X U n i)).mp hn i (Finset.mem_univ i)
  exact sq_eq_zero_iff.mp hi

theorem objectiveInfnorm_eq_zero_residual {p q N : ℕ}
    {X : Traj p N} {U : Traj q N}
    {M : (Fin p → Fin p → ℚ) × (Fin p → Fin q → ℚ)}
    (h : objectiveInfnorm X U M = 0) (n : Fin N) (i : Fin p) :
    residual M.1 M.2 X U n i = 0 := by
  have hn := (Finset.sum_eq_zero_iff_of_nonneg fun n _ =>
    listMax_nonneg _).mp h n (Finset.mem_univ n)
  have hmem : |residual M.1 M.2 X U n i| ∈
      List.ofFn fun i : Fin p => |residual M.1 M.2 X U n i| :=
    (List.mem_ofFn _ _).mpr ⟨i, rfl⟩
  have := le_listMax hmem
  rw [hn] at this
  exact abs_nonpos_iff.mp this

theorem objective1norm_eq_zero_residual {p q N : ℕ}
    {X : Traj p N} {U : Traj q N}
    {M : (Fin p → Fin p → ℚ) × (Fin p → Fin q → ℚ)}
    (h : objective1norm X U M = 0) (n : Fin N) (i : Fin p) :
    residual M.1 M.2 X U n i = 0 := by
  have hn := (Finset.sum_eq_zero_iff_of_nonneg fun n _ =>
    Finset.sum_nonneg fun i _ => abs_nonneg
      (residual M.1 M.2 X U n i)).mp h n (Finset.mem_univ n)
  have hi := (Finset.sum_eq_zero_iff_of_nonneg fun i _ =>
    abs_nonneg (residual M.1 M.2 X U n i)).mp hn i (Finset.mem_univ i)
  exact abs_eq_zero.mp hi

/-! ## Claim theorems -/

/-- C2: for each of the three regression objectives (L2, L-infinity, L1), the
identified matrices — modelled by their defining property of minimizing the
objective stated in the notebook, since the solution bodies are student
placeholders — drive every entry of the residual
`Ahat @ X[:,:-1] + Bhat @ U[:,:-1] - X[:,1:]` to exactly `0` (hence below any
fixed tolerance) whenever the trajectory data `(X, U)` is noiseless. -/
theorem C2_noiseless_minimizers_zero_residual {p q N : ℕ}
    (A : Fin p → Fin p → ℚ) (B : Fin p → Fin q → ℚ)
    (X : Traj p N) (U : Traj q N)
    (M2 Minf M1 : (Fin p → Fin p → ℚ) × (Fin p → Fin q → ℚ))
    (hdata : NoiselessData A B X U)
    (h2 : IsMinimizer X U objective2norm M2)
    (hinf : IsMinimizer X U objectiveInfnorm Minf)
    (h1 : IsMinimizer X U objective1norm M1) :
    ∀ (n : Fin N) (i : Fin p),
      residual M2.1 M2.2 X U n i = 0 ∧
      residual Minf.1 Minf.2 X U n i = 0 ∧
      residual M1.1 M1.2 X U n i = 0 := by
  have hz2 : objective2norm X U M2 = 0 :=
    le_antisymm (by
      have := h2 (A, B)
      rwa [objective2norm_true hdata] at this) (objective2norm_nonneg X U M2)
  have hzinf : objectiveInfnorm X U Minf = 0 :=
    le_antisymm (by
      have := hinf (A, B)
      rwa [objectiveInfnorm_true hdata] at this)
      (objectiveInfnorm_nonneg X U Minf)
  have hz1 : objective1norm X U M1 = 0 :=
    le_antisymm (by
      have := h1 (A, B)
      rwa [objective1norm_true hdata] at this) (objective1norm_nonneg X U M1)
  exact fun n i =>
    ⟨objective2norm_eq_zero_residual hz2 n i,
     objectiveInfnorm_eq_zero_residual hzinf n i,
     objective1norm_eq_zero_residual hz1 n i⟩

/-- Witness for C2 on the concrete noiseless one-dimensional trajectory
`Xw`, `Uw` generated by `Aw`, `Bw`. -/
theorem C2_witness :
    NoiselessData Aw Bw Xw Uw ∧
    residual Aw Bw Xw Uw 0 0 = 0 ∧
    residual Aw Bw Xw Uw 0 0 = 0 ∧
    residual Aw Bw Xw Uw 0 0 = 0 := by
  have hdata : NoiselessData Aw Bw Xw Uw := by
    intro n i
    fin_cases n
    fin_cases i
    norm_num [Xw, Uw, Aw, Bw, Fin.sum_univ_one]
  exact ⟨hdata,
    C2_noiseless_minimizers_zero_residual Aw Bw Xw Uw (Aw, Bw) (Aw, Bw)
      (Aw, Bw) hdata (isMinimizer2_of_noiseless hdata)
      (isMinimizerInf_of_noiseless hdata) (isMinimizer1_of_noiseless hdata)
      0 0⟩

/-- C4: with the student placeholder sections left unfilled, every
identification function returns the zero matrices of shapes `p × p` and
`p × q` for every input, and the notebook variables `rho_method_1` and
`rho_method_3` equal `0`. -/
theorem C4_placeholders_return_zero :
    ∀ (p q N : ℕ) (X : Traj p N) (U : Traj q N) (c c' : ℚ),
      sysid_2norm X U =
        ((fun _ _ => 0 : Fin p → Fin p → ℚ),
         (fun _ _ => 0 : Fin p → Fin q → ℚ)) ∧
      (sysid_infnorm c X U).1 = (fun _ _ => 0 : Fin p → Fin p → ℚ) ∧
      (sysid_infnorm c X U).2.1 = (fun _ _ => 0 : Fin p → Fin q → ℚ) ∧
      (sysid_1norm c' X U).1 = (fun _ _ => 0 : Fin p → Fin p → ℚ) ∧
      (sysid_1norm c' X U).2.1 = (fun _ _ => 0 : Fin p → Fin q → ℚ) ∧
      rho_method_1 = 0 ∧ rho_method_3 = 0 :=
  fun _ _ _ _ _ _ _ => ⟨rfl, rfl, rfl, rfl, rfl, rfl, rfl⟩

/-- C6: `is_verified(rho)` builds from scratch a SOS feasibility program over
two indeterminates with the Lyapunov function `V`, its derivative `V_dot`, a
fresh SOS multiplier of even degree 4, the single SOS constraint
`- V_dot - l*(rho - V) - eps*x.dot(x)` with `eps = 1e-3`, and no objective;
it returns exactly the solver's success flag, and — being a pure function of
`rho` and the solver — carries no state between calls. -/
theorem C6_is_verified_builds_feasibility_program :
    ∀ (rho : ℚ) (solver : SOSProgram → Bool),
      (is_verified rho solver = true ↔
        solver (is_verified_prog rho) = true) ∧
      (is_verified_prog rho).numIndeterminates = 2 ∧
      (is_verified_prog rho).multiplierDegree = 4 ∧
      (is_verified_prog rho).multiplierDegree % 2 = 0 ∧
      (is_verified_prog rho).eps = 1/1000 ∧
      (is_verified_prog rho).objective = none ∧
      (∀ (l : ℚ × ℚ → ℚ) (x : ℚ × ℚ),
        (is_verified_prog rho).sosConstraint l x =
          -(V_dot x) - l x * (rho - V x) - (1/1000) * (x.1 * x.1 + x.2 * x.2)) := by
  intro rho solver
  refine ⟨Iff.rfl, rfl, rfl, ?_, rfl, rfl, fun l x => rfl⟩
  norm_num [is_verified_prog, l_deg_is_verified]

/-- C8: the Method 2 cell invokes the solver only when `prog2` carries more
than one constraint; with the placeholders unfilled (no student constraint,
so only the multiplier's SOS constraint is present), `Solve` is never called,
the assertion cannot fire, and `rho_method_2` is never bound. -/
theorem C8_method2_solve_guard :
    (∀ solver : SolveOutcome,
      method2Cell 0 solver =
        { solveCalled := false, assertionFired := false
          rho_method_2 := none }) ∧
    ∀ (studentAdded : ℕ) (solver : SolveOutcome),
      ((method2Cell studentAdded solver).solveCalled = true ↔
        method2ConstraintCount studentAdded > 1) := by
  constructor
  · intro solver
    rfl
  · intro studentAdded solver
    by_cases h : method2ConstraintCount studentAdded > 1
    · simp only [method2Cell, if_pos h]
      by_cases hs : solver.success <;> simp [hs, h]
    · simp [method2Cell, if_neg h, h]

/-- C9: the guards `assert l_deg % 2 == 0` in `is_verified` and in the
Method 2 cell always hold, because `l_deg` is the literal `4` in both
places. -/
theorem C9_l_deg_asserts_always_hold :
    l_deg_is_verified = 4 ∧ l_deg_method2 = 4 ∧
    l_deg_assert l_deg_is_verified = true ∧
    l_deg_assert l_deg_method2 = true := by
  refine ⟨rfl, rfl, ?_, ?_⟩ <;> rfl

/-- C10: the sysid notebook is deterministic across runs: `np.random.seed(0)`
in the import cell replaces whatever random-generator state the interpreter
started with, so two complete executions — whatever their initial RNG states —
produce identical `(t, U, X)` from `generate_data`, whose output is a function
of its arguments and the threaded generator state alone. -/
theorem C10_sysid_notebook_deterministic :
    ∀ (lib : SysidLib) (s₁ s₂ : RngState),
      sysidNotebookData lib s₁ = sysidNotebookData lib s₂ :=
  fun _ _ _ => rfl

/-- C3 fails as stated: the placeholder scaffolds of `sysid_infnorm` and
`sysid_1norm` each contain a `Solve` call whose result's success flag is never
read (`obj_value = result.get_optimal_cost()` follows the solve directly), so
not every solver invocation in the repository checks the flag. -/
theorem C3_counterexample :
    (({ site := "linear_sysid.sysid_infnorm", handling := .ignoreFlag
        invocationsPerExecution := 1 } : SolveSite) ∈ solveCallSites ∧
      checksFlag FlagHandling.ignoreFlag = false) ∧
    (solveCallSites.all fun s => checksFlag s.handling) = false := by
  refine ⟨⟨?_, rfl⟩, rfl⟩
  simp [solveCallSites]

/-- C3 amended: every solver invocation calls `Solve` exactly once per
execution with no retry; the direct-collocation solve and the Method 2 SOS
solve assert on non-success, `is_verified` returns the flag itself, and the
only invocations that do not check the flag are the two placeholder solves of
empty programs in `sysid_infnorm` and `sysid_1norm`. -/
theorem C3_amended_handling :
    (solveCallSites.all fun s => s.invocationsPerExecution == 1) = true ∧
    solveCallSites.map SolveSite.handling =
      [.assertOnFailure, .returnFlag, .assertOnFailure,
       .ignoreFlag, .ignoreFlag] ∧
    (solveCallSites.filter fun s => !(checksFlag s.handling)).map
        SolveSite.site =
      ["linear_sysid.sysid_infnorm", "linear_sysid.sysid_1norm"] := by
  refine ⟨rfl, rfl, ?_⟩
  rfl

/-- C5 fails as stated: `limit_cycles.ipynb` contains no autograding cell at
all (its last cell is empty code), so it is not the case that every notebook
ends with a grading cell. -/
theorem C5_counterexample :
    (limitCyclesNotebook ∈ repositoryNotebooks ∧
      containsGradingCell limitCyclesNotebook = false ∧
      endsWithGradingCell limitCyclesNotebook = false) ∧
    (repositoryNotebooks.all endsWithGradingCell) = false := by
  refine ⟨⟨?_, rfl, rfl⟩, rfl⟩
  simp [repositoryNotebooks]

/-- C5 amended: the ROA notebook ends with an autograding cell and the sysid
notebook contains exactly one (followed only by an empty trailing code cell);
each grading cell passes `locals()` and the notebook's test class to
`Grader.grade_output`, which reports to `results.json`; the limit-cycles
notebook has no autograding cell. -/
theorem C7_lyapunov_function_from_linearization :
    A_lin.transpose * P + P * A_lin = -Q_lyap ∧
    deriv (fun t : ℝ => (f (t, (0:ℝ))).1) 0 = (A_lin 0 0 : ℝ) ∧
    deriv (fun t : ℝ => (f ((0:ℝ), t)).1) 0 = (A_lin 0 1 : ℝ) ∧
    deriv (fun t : ℝ => (f (t, (0:ℝ))).2) 0 = (A_lin 1 0 : ℝ) ∧
    deriv (fun t : ℝ => (f ((0:ℝ), t)).2) 0 = (A_lin 1 1 : ℝ) ∧
    (∀ x : ℚ × ℚ, V x = 3/2 * x.1^2 - x.1 * x.2 + x.2^2) ∧
    (∀ x : ℚ × ℚ, V_dot x =
      2 * Matrix.dotProduct ![x.1, x.2] (P.mulVec ![(f x).1, (f x).2])) ∧
    (∀ x : ℚ × ℚ, V_dot x =
      -x.1^2 - x.2^2 - x.1^3 * x.2 + 2 * x.1^2 * x.2^2) := by
  refine ⟨?_, ?_, ?_, ?_, ?_, ?_, fun x => rfl, ?_⟩
  · ext i j
    fin_cases i <;> fin_cases j <;>
      simp [A_lin, P, Q_lyap, Matrix.mul_apply, Matrix.transpose_apply,
        Matrix.neg_apply, Matrix.one_apply, Fin.sum_univ_two,
        Matrix.vecHead, Matrix.vecTail] <;>
      norm_num
  · have h : (fun t : ℝ => (f (t, (0:ℝ))).1) = fun _ => (0:ℝ) := by
      funext t
      simp [f]
    rw [h, deriv_const]
    norm_num [A_lin]
  · have h : (fun t : ℝ => (f ((0:ℝ), t)).1) = fun t => -t := by
      funext t
      simp [f]
    rw [h, deriv_neg'']
    norm_num [A_lin]
  · have h : (fun t : ℝ => (f (t, (0:ℝ))).2) = fun t => t := by
      funext t
      simp [f]
    rw [h]
    rw [deriv_id'']
    norm_num [A_lin]
  · have h : (fun t : ℝ => (f ((0:ℝ), t)).2) = fun t => -t := by
      funext t
      simp only [f]
      ring
    rw [h, deriv_neg'']
    norm_num [A_lin]
  · intro x
    simp [V, P, Matrix.dotProduct, Matrix.mulVec, Fin.sum_univ_two]
    ring
  · intro x
    simp [V_dot, P, f, Matrix.dotProduct, Matrix.mulVec, Fin.sum_univ_two]
    ring

theorem C5_amended_grading_cells :
    endsWithGradingCell roaNotebook = true ∧
    containsGradingCell sysidNotebook = true ∧
    sysidNotebook.getLast? = some Cell.emptyCode ∧
    sysidNotebook.filter isStandardGradingCell = [Cell.grading sysidGrading] ∧
    roaGrading.testClass = "TestVanDerPol" ∧
    sysidGrading.testClass = "TestLinearSysid" ∧
    roaGrading.passesLocals = true ∧ sysidGrading.passesLocals = true ∧
    roaGrading.resultsFile = "results.json" ∧
    sysidGrading.resultsFile = "results.json" ∧
    containsGradingCell limitCyclesNotebook = false := by
  refine ⟨rfl, rfl, ?_, ?_, rfl, rfl, rfl, rfl, rfl, rfl, rfl⟩ <;> rfl

end Underactuated
